import Mathlib

set_option maxRecDepth 4000

/-!
Verification of the PolyForge provisioning script (src/PolyForge.py) against
its natural-language specification.  Pure fragments of the script are embedded
as Lean functions; interactive prompts and external commands become explicit
oracle parameters (decision functions, command-result functions), and code
that can raise an uncaught Python exception is embedded with Except.
-/

/-! ## Generic string helpers (Python `needle in haystack`, re.search) -/

/-- Substring test on character lists: models the Python expression
`needle in haystack` used by detect_distro and check_time_sync. -/
def list_contains_sub (needle : List Char) : List Char → Bool
  | [] => needle.isEmpty
  | c :: rest => needle.isPrefixOf (c :: rest) || list_contains_sub needle rest

/-- Substring test on strings, Python `needle in hay`. -/
def str_contains_sub (hay needle : String) : Bool :=
  list_contains_sub needle.toList hay.toList

/-! ## SECTION 3: Preflight environment checks (PolyForge.py lines 69-130)

Each probe that shells out or opens a socket takes the outcome of that
external operation as an `Except` argument: `Except.error` models the raised
Python exception. -/

/-- `has_internet` (lines 69-74): socket.create_connection under a bare
try/except; any failure yields False. -/
def has_internet (connect : Except String Unit) : Bool :=
  match connect with
  | Except.ok _ => true
  | Except.error _ => false

/-- `check_dns` (lines 76-80): gethostbyname; socket.gaierror yields None. -/
def check_dns (resolve : Except String String) : Option String :=
  match resolve with
  | Except.ok addr => some addr
  | Except.error _ => none

/-- `check_time_sync` (lines 91-96): output of `timedatectl status` under
try/except; failure yields False, otherwise a substring test. -/
def check_time_sync (cmd : Except String String) : Bool :=
  match cmd with
  | Except.ok out => str_contains_sub out ("System clock synchronized: yes")
  | Except.error _ => false

/-- `is_live_cd` (lines 191-197): /proc/cmdline under try/except. -/
def is_live_cd (cmdline : Except String String) : Bool :=
  match cmdline with
  | Except.ok s => str_contains_sub s ("boot=live") || str_contains_sub s ("live-media")
  | Except.error _ => false

/-- Whitespace class of the regex `\s` used in `MemTotal:\s+(\d+)`. -/
def is_space_char (c : Char) : Bool :=
  (c == ' ') || (c == '\t') || (c == '\n') || (c == '\r')

/-- Decimal value of a digit run captured by `(\d+)`. -/
def digits_to_nat (ds : List Char) : Nat :=
  ds.foldl (fun a c => a * 10 + (c.toNat - ('0').toNat)) 0

/-- Attempt to match the regex `MemTotal:\s+(\d+)` at the head of the list. -/
def match_memtotal_at (cs : List Char) : Option Nat :=
  if (("MemTotal:").toList).isPrefixOf cs then
    let rest := cs.drop ((("MemTotal:").toList).length)
    let ws := rest.takeWhile is_space_char
    let ds := (rest.dropWhile is_space_char).takeWhile Char.isDigit
    if ws.isEmpty || ds.isEmpty then none else some (digits_to_nat ds)
  else none

/-- `re.search` of `MemTotal:\s+(\d+)`: first position with a full match. -/
def search_memtotal : List Char → Option Nat
  | [] => none
  | c :: rest =>
    match match_memtotal_at (c :: rest) with
    | some n => some n
    | none => search_memtotal rest

/-- `get_ram_gb` (lines 82-85).  The function has no exception handler: a
missing /proc/meminfo propagates the open() error, and when re.search finds
no match the `.group(1)` call raises AttributeError.  On success the source
converts the captured kB figure to GB for display (float rounding, outside
this integer model); the captured integer is returned here. -/
def get_ram_gb (meminfo : Except String String) : Except String Nat :=
  match meminfo with
  | Except.error e => Except.error e
  | Except.ok content =>
    match search_memtotal content.toList with
    | some kb => Except.ok kb
    | none => Except.error ("AttributeError: NoneType object has no attribute group")

/-- `detect_distro` (lines 98-116): substring matching over /etc/os-release;
`none` models the file being absent (os.path.exists False). -/
def detect_distro (osRelease : Option String) : String :=
  match osRelease with
  | none => ("unknown")
  | some lines =>
    if str_contains_sub lines ("ID_LIKE=debian") || str_contains_sub lines ("ID=debian") then ("debian")
    else if str_contains_sub lines ("ID=arch") then ("arch")
    else if str_contains_sub lines ("ID=fedora") || str_contains_sub lines ("ID_LIKE=fedora") then ("fedora")
    else if str_contains_sub lines ("ID=alpine") then ("alpine")
    else if str_contains_sub lines ("ID=suse") then ("opensuse")
    else if str_contains_sub lines ("ID=proxmox") then ("proxmox")
    else if str_contains_sub lines ("ID=truenas") then ("truenas")
    else ("unknown")

/-- The dictionary literal in `get_package_manager` (lines 118-130). -/
def pkg_table : List (String × String) :=
  [(("debian"), ("apt")), (("ubuntu"), ("apt")), (("arch"), ("pacman")),
   (("manjaro"), ("pacman")), (("fedora"), ("dnf")), (("centos"), ("dnf")),
   (("alpine"), ("apk")), (("opensuse"), ("zypper")), (("proxmox"), ("apt")),
   (("truenas"), ("pkg"))]

/-- `get_package_manager` (lines 118-130): dict .get with default None. -/
def get_package_manager (distro : String) : Option String :=
  pkg_table.lookup distro

/-- The fixed result set of detect_distro. -/
def distro_catalog : List String :=
  [("debian"), ("arch"), ("fedora"), ("alpine"), ("opensuse"),
   ("proxmox"), ("truenas"), ("unknown")]

/-! ## SECTIONS 8-10: Config document save/load (lines 248-324)

The config document is a flat string mapping; `yaml.dump` writes one
`key: value` line per entry and `yaml.safe_load` parses them back.  The file
on disk is a list of complete lines.  Saving opens CONFIG_PATH with mode
"w" (truncate) and writes the new serialization - there is no temporary
file and no rename.  An interruption after k complete lines therefore
leaves exactly the first k lines of the new serialization. -/

/-- One `key: value` line of `yaml.dump` output for a flat string map. -/
def serialize_pair (p : String × String) : String :=
  p.1 ++ (": ") ++ p.2

/-- `yaml.dump(config, f)` for a flat string map (lines 279-280, 318-319). -/
def serialize_doc (doc : List (String × String)) : List String :=
  doc.map serialize_pair

/-- `open(CONFIG_PATH, "w")` + `yaml.dump`: truncates the file, then writes
the new serialization; the previous content does not influence the result. -/
def save_config (oldFile : List String) (newDoc : List (String × String)) : List String :=
  serialize_doc newDoc

/-- State of CONFIG_PATH if the process dies after k complete lines of the
truncate-and-write in save_config have reached the disk. -/
def interrupted_save (oldFile : List String) (newDoc : List (String × String)) (k : Nat) : List String :=
  (serialize_doc newDoc).take k

/-- Split a character list at the first occurrence of `sep`, if any. -/
def split_first (sep : List Char) : List Char → Option (List Char × List Char)
  | [] => none
  | c :: rest =>
    if sep.isPrefixOf (c :: rest) then some ([], (c :: rest).drop sep.length)
    else
      match split_first sep rest with
      | some pr => some (c :: pr.1, pr.2)
      | none => none

/-- Parse one `key: value` line the way yaml.safe_load reads a flat mapping
entry: there must be exactly one `: ` separator, otherwise the document is
rejected (YAMLError, surfaced by load_config as the corrupt case). -/
def parse_line (s : String) : Option (String × String) :=
  match split_first ((": ").toList) s.toList with
  | none => none
  | some pr =>
    if list_contains_sub ((": ").toList) pr.2 then none
    else some (String.mk pr.1, String.mk pr.2)

/-- `load_config` (lines 253-262) restricted to flat string maps: parse every
line; any malformed line makes yaml.safe_load raise, which load_config
reports as the corrupt/None outcome. -/
def load_config : List String → Option (List (String × String))
  | [] => some []
  | line :: rest =>
    match parse_line line, load_config rest with
    | some kv, some doc => some (kv :: doc)
    | _, _ => none

/-! ## SECTIONS 11-13: Disk and USB provisioning (lines 329-444) -/

/-- One node of the `lsblk -o NAME,SIZE,TYPE,MOUNTPOINT -J` output with
TYPE "disk" (detect_unmounted_devices only inspects those), plus the UUID
the device currently carries, if any. -/
structure Disk where
  name : String
  size : String
  mountpoint : Option String
  uuid : Option String
deriving DecidableEq, Repr

/-- An fstab line `UUID=<uuid> <mountpoint> ext4 ...` reduced to its
identifying fields. -/
structure FstabEntry where
  uuid : String
  mount_point : String
deriving DecidableEq, Repr

/-- Outcomes of the external commands the disk pipeline consults.
`model` is `lsblk -dno MODEL` (none = lookup failure, caught inside
label_disk); `blkid` is `blkid -s UUID -o value` (none = nonzero exit, which
makes subprocess.check_output raise CalledProcessError).  The exit statuses
of `mkfs.ext4` and `mount` are issued via subprocess.run without check=True
and are never read by the script, so they do not appear here. -/
structure CmdEnv where
  model : String → Option String
  blkid : String → Option String

/-- `label_disk` (lines 355-361). -/
def label_disk (env : CmdEnv) (name size : String) : String :=
  let base :=
    match env.model name with
    | some m => (m.replace (" ") ("_")).toUpper
    | none => ("UNKNOWN")
  base ++ ("_") ++ ((size.replace ("G") ("")).replace (".") ("")) ++ ("_HDD")

/-- The mount path `f"/data/{label.lower()}"` of line 380. -/
def mount_point_for (env : CmdEnv) (d : Disk) : String :=
  ("/data/") ++ (label_disk env d.name d.size).toLower

/-- Mutating calls the script can issue, for the frame/effect claims. -/
inductive Act where
  | configSave
  | mkfsCmd (dev : String)
  | mountCmd (dev : String)
  | fstabAppend (uuid : String)
  | stateCacheSave
deriving DecidableEq, Repr

/-- `detect_unmounted_devices` (lines 341-353): the type "disk" nodes whose
MOUNTPOINT is null. -/
def detect_unmounted_devices (disks : List Disk) : List Disk :=
  disks.filter (fun d => d.mountpoint.isNone)

/-- `setup_unmounted_disks` (lines 371-386).  For each offered disk the
operator decision is `wipe`; on acceptance the script runs mkfs.ext4 and
mount (their exit statuses are never examined), then reads the UUID with
subprocess.check_output: a failing blkid raises CalledProcessError, which no
handler catches, so the whole loop aborts and the entries collected so far
are lost.  Returns the trace of issued commands and either the fstab entry
list or the escaped exception. -/
def setup_unmounted_disks (env : CmdEnv) (wipe : String → Bool) :
    List Disk → List Act × Except String (List FstabEntry)
  | [] => ([], Except.ok [])
  | d :: rest =>
    if wipe d.name then
      match env.blkid d.name with
      | none =>
        ([Act.mkfsCmd d.name, Act.mountCmd d.name], Except.error ("CalledProcessError: blkid"))
      | some u =>
        let res := setup_unmounted_disks env wipe rest
        (Act.mkfsCmd d.name :: Act.mountCmd d.name :: res.1,
         match res.2 with
         | Except.ok es => Except.ok (FstabEntry.mk u (mount_point_for env d) :: es)
         | Except.error e => Except.error e)
    else setup_unmounted_disks env wipe rest

/-- `write_fstab` (lines 388-392): append-only. -/
def write_fstab (fstab : List FstabEntry) (entries : List FstabEntry) : List FstabEntry :=
  fstab ++ entries

/-- The externally owned state the disk pipeline reads and mutates:
the block-device inventory as lsblk reports it, and /etc/fstab. -/
structure SysState where
  disks : List Disk
  fstab : List FstabEntry
deriving Repr

/-- The driver at lines 394-402: probe for unmounted disks; when some exist,
run setup_unmounted_disks and append the produced entries to /etc/fstab.
If the setup loop escapes with an exception, write_fstab is never reached
and fstab is unchanged (the process dies).  Mount side effects of the run
appear in the returned trace. -/
def run_disk_pipeline (env : CmdEnv) (wipe : String → Bool) (s : SysState) :
    SysState × List Act :=
  let unmounted := detect_unmounted_devices s.disks
  if unmounted.isEmpty then (s, [])
  else
    let res := setup_unmounted_disks env wipe unmounted
    match res.2 with
    | Except.ok es =>
      ({ s with fstab := write_fstab s.fstab es },
       res.1 ++ es.map (fun e => Act.fstabAppend e.uuid))
    | Except.error _ => (s, res.1)

/-- A `usb_backups` record (lines 434-438). -/
structure UsbRecord where
  label : String
  mount_point : String
  uuid : String
deriving DecidableEq, Repr

/-- The config document fields this model tracks. -/
structure Config where
  system_name : String
  services : List (String × Bool)
  usb_backups : List UsbRecord
deriving DecidableEq, Repr

/-- The record built at lines 425-438 for one accepted USB device:
label_disk is called with size "USB", the mount point is
`f"/mnt/usb_{label.lower()}"`. -/
def usb_record (env : CmdEnv) (name : String) (u : String) : UsbRecord :=
  let label := label_disk env name ("USB")
  UsbRecord.mk label (("/mnt/usb_") ++ label.toLower) u

/-- The body of the loop in `configure_usb_backups` (lines 419-439), with
the accumulator config explicit: per accepted device the script formats,
mounts, appends one fstab line and appends one usb_backups record; a failing
blkid raises out of the function. -/
def usb_loop (env : CmdEnv) (use : String → Bool) :
    List String → Config → List Act × Except String Config
  | [], cfg => ([], Except.ok cfg)
  | n :: rest, cfg =>
    if use n then
      match env.blkid n with
      | none =>
        ([Act.mkfsCmd n, Act.mountCmd n], Except.error ("CalledProcessError: blkid"))
      | some u =>
        let cfg2 := { cfg with usb_backups := cfg.usb_backups ++ [usb_record env n u] }
        let res := usb_loop env use rest cfg2
        (Act.mkfsCmd n :: Act.mountCmd n :: Act.fstabAppend u :: res.1, res.2)
    else usb_loop env use rest cfg

/-- `configure_usb_backups` (lines 417-440): the first statement is
`config["usb_backups"] = []`, discarding any previously stored entries, then
the loop appends one record per accepted device. -/
def configure_usb_backups (env : CmdEnv) (use : String → Bool)
    (usbNames : List String) (config : Config) : List Act × Except String Config :=
  usb_loop env use usbNames ({ config with usb_backups := [] })

/-! ## SECTIONS 1, 9, 12-16: the run up to the dry-run gate (lines 43-510) -/

/-- `cli_flags` (lines 43-51): membership of each literal flag in argv. -/
structure CliFlags where
  dry_run : Bool
  no_prompt : Bool
  reconfigure : Bool
  repair : Bool
  uninstall : Bool
  force : Bool
deriving DecidableEq, Repr

/-- The Section 1 flag dictionary. -/
def cli_flags (args : List String) : CliFlags :=
  { dry_run := args.contains ("--dry-run"),
    no_prompt := args.contains ("--no-prompt"),
    reconfigure := args.contains ("--reconfigure"),
    repair := args.contains ("--repair"),
    uninstall := args.contains ("--uninstall"),
    force := args.contains ("--force") }

/-- The install source chosen by intro_prompt (lines 212-242). -/
inductive InstallMode
  | auto
  | interactive
  | fromConfig
deriving DecidableEq, Repr

/-- The script from Section 9 through the dry-run gate of Section 16
(lines 274-510), as the trace of mutating calls it issues plus the exit
code.  Order, faithful to the source: (1) when the install source is not
config.yaml, the config document is written at once (lines 275-281);
(2) unmounted-disk setup and the fstab append (lines 394-402); (3) the USB
backup loop (lines 442-444); (4) save_state_cache (line 462); and only then
(5) dry_run_warning (line 510) exits with code 0 when --dry-run was given.
An exception escaping the disk or USB loop kills the script (exit 1).
`rest`/`restExit` stand for the mutations and exit status of everything
after the gate (network, security, service installers), which only a
non-dry run reaches. -/
def script_run (args : List String) (mode : InstallMode) (env : CmdEnv)
    (wipe : String → Bool) (disks : List Disk) (use : String → Bool)
    (usbNames : List String) (cfg : Config) (rest : List Act) (restExit : Nat) :
    List Act × Nat :=
  let flags := cli_flags args
  let t1 : List Act := if mode = InstallMode.fromConfig then [] else [Act.configSave]
  let unmounted := detect_unmounted_devices disks
  let setupRes :=
    if unmounted.isEmpty then ([], Except.ok [])
    else setup_unmounted_disks env wipe unmounted
  match setupRes.2 with
  | Except.error _ => (t1 ++ setupRes.1, 1)
  | Except.ok es =>
    let t2 := setupRes.1 ++ (if unmounted.isEmpty then [] else es.map (fun e => Act.fstabAppend e.uuid))
    let usbRes :=
      if usbNames.isEmpty then ([], Except.ok cfg)
      else configure_usb_backups env use usbNames cfg
    match usbRes.2 with
    | Except.error _ => (t1 ++ t2 ++ usbRes.1, 1)
    | Except.ok _ =>
      let t3 := usbRes.1 ++ [Act.stateCacheSave]
      if flags.dry_run then (t1 ++ t2 ++ t3, 0)
      else (t1 ++ t2 ++ t3 ++ rest, restExit)

/-! ## SECTION 39: flag routing (lines 1118-1186) -/

/-- The argparse namespace of lines 1120-1127 (note: no --validate and no
--force argument is registered there). -/
structure ArgparseFlags where
  dry_run : Bool
  no_prompt : Bool
  repair : Bool
  reconfigure : Bool
  uninstall : Bool
  disable_automation : Bool
deriving DecidableEq, Repr

/-- Flag extraction as argparse stores it for this flag set. -/
def parse_args (argv : List String) : ArgparseFlags :=
  { dry_run := argv.contains ("--dry-run"),
    no_prompt := argv.contains ("--no-prompt"),
    repair := argv.contains ("--repair"),
    reconfigure := argv.contains ("--reconfigure"),
    uninstall := argv.contains ("--uninstall"),
    disable_automation := argv.contains ("--disable-automation") }

/-- Which of Section 39's mutually exclusive branches ends the process. -/
inductive RouteOutcome
  | dryRunExit
  | repairExit
  | reconfigureExit
  | uninstallExit
  | disableAutomationExit
  | fallThrough
deriving DecidableEq, Repr

/-- The sequential if/sys.exit chain of lines 1132-1186: dry_run is tested
first, then repair, then reconfigure, then uninstall (which only exits when
the operator confirms), then disable_automation; otherwise execution falls
through. -/
def route_modes (cli : ArgparseFlags) (confirmUninstall : Bool) : RouteOutcome :=
  if cli.dry_run then RouteOutcome.dryRunExit
  else if cli.repair then RouteOutcome.repairExit
  else if cli.reconfigure then RouteOutcome.reconfigureExit
  else if cli.uninstall && confirmUninstall then RouteOutcome.uninstallExit
  else if cli.disable_automation then RouteOutcome.disableAutomationExit
  else RouteOutcome.fallThrough

/-! ## SECTION 45: validation mode (lines 1291-1334) -/

/-- `validate_section` (lines 1294-1299): the check runs under try/except,
a raised exception is reported as a failure and swallowed. -/
def validate_section (name : String) (check : Except String Unit) : String × Bool :=
  match check with
  | Except.ok _ => (name, true)
  | Except.error _ => (name, false)

/-- The validation driver (lines 1328-1334): the five validate_section calls
in sequence, then `sys.exit(0)` unconditionally.  Returns the reported
(name, passed) results and the exit code. -/
def run_validate (checks : List (String × Except String Unit)) :
    List (String × Bool) × Nat :=
  (checks.foldl (fun acc c => acc ++ [validate_section c.1 c.2]) [], 0)

/-! ## SECTION 18: port conflict detection (lines 549-572) -/

/-- A value of the REQUIRED_PORTS dict: a port or a list of ports. -/
inductive PortSpec
  | single (p : Nat)
  | multi (ps : List Nat)
deriving DecidableEq, Repr

/-- The ports a PortSpec denotes. -/
def spec_ports : PortSpec → List Nat
  | PortSpec.single p => [p]
  | PortSpec.multi ps => ps

/-- `is_port_used` (lines 569-572): connect_ex against localhost; the
`listening` oracle is the set of ports with a local listener. -/
def is_port_used (listening : Nat → Bool) (p : Nat) : Bool :=
  listening p

/-- `check_ports` (lines 557-567): for each requested service, collect the
(service, port) pairs whose port is already in use, preserving order. -/
def check_ports (listening : Nat → Bool) :
    List (String × PortSpec) → List (String × Nat)
  | [] => []
  | (n, PortSpec.single p) :: rest =>
    (if is_port_used listening p then [(n, p)] else []) ++ check_ports listening rest
  | (n, PortSpec.multi ps) :: rest =>
    ((ps.filter (is_port_used listening)).map (fun p => (n, p))) ++ check_ports listening rest

/-! ## Concrete fixtures used by witnesses and counterexamples -/

/-- A command environment whose model lookup fails (label UNKNOWN) and whose
blkid succeeds with a device-derived fresh UUID. -/
def env_ok : CmdEnv :=
  CmdEnv.mk (fun _ => none) (fun n => some (("uuid-") ++ n))

/-- A command environment whose blkid fails for device sdb only. -/
def env_blkid_sdb_fails : CmdEnv :=
  CmdEnv.mk (fun _ => none) (fun n => if n == ("sdb") then none else some (("uuid-") ++ n))

/-- An already-mounted disk carrying UUID u-1. -/
def disk_sda_mounted : Disk :=
  Disk.mk ("sda") ("100G") (some ("/data/old")) (some ("u-1"))

/-- An unmounted 500G disk sdb. -/
def disk_sdb : Disk :=
  Disk.mk ("sdb") ("500G") none none

/-- An unmounted disk sdc. -/
def disk_sdc : Disk :=
  Disk.mk ("sdc") ("250G") none none

/-- System state for the idempotence witness: sda already promoted to
Mounted and registered once, sdb still unmounted. -/
def state_w : SysState :=
  SysState.mk [disk_sda_mounted, disk_sdb] [FstabEntry.mk ("u-1") ("/data/old")]

/-- A minimal config document fixture. -/
def cfg_w : Config :=
  Config.mk ("polyforge-node") [] [UsbRecord.mk ("OLD") ("/mnt/usb_old") ("u-9")]

/-- The dry-run evaluation of script_run at the failing input for C1:
`--dry-run`, install source auto, one unmounted disk accepted, no USB
devices. -/
def dry_run_eval : List Act × Nat :=
  script_run [("--dry-run")] InstallMode.auto env_ok (fun _ => true)
    [disk_sdb] (fun _ => false) [] cfg_w [] 1

/-- The previous config document for the atomic-save counterexample. -/
def doc_old : List (String × String) := [(("system_name"), ("oldbox"))]

/-- The new config document for the atomic-save counterexample. -/
def doc_new : List (String × String) :=
  [(("system_name"), ("newbox")), (("admin_user"), ("polyadmin"))]

/-- The requested (service, port) pairs a REQUIRED_PORTS mapping denotes,
in request order.  Modelled from the spec phrase "for each requested port
... returns the subset in conflict": this is the spec-side expansion the
implementation is compared against. -/
def requested_pairs (reqs : List (String × PortSpec)) : List (String × Nat) :=
  reqs.flatMap (fun r => (spec_ports r.2).map (fun p => (r.1, p)))

/-! ## Theorems -/

theorem filter_map_comm {α β : Type} (f : α → β) (p : β → Bool) (l : List α) :
    (l.map f).filter p = (l.filter (fun a => p (f a))).map f := by
  induction l with
  | nil => rfl
  | cons a tl ih =>
    by_cases h : p (f a) = true
    · simp [h, ih]
    · simp [h, ih]

/-- Claim C8: check_ports returns exactly the requested (service, port)
pairs whose port already has a local listener, and on the request
SSH to 22, Plex to 32400 with a listener bound only on 32400 it returns
the single conflict (Plex, 32400). -/
theorem check_ports_conflict_subset :
    (∀ (listening : Nat → Bool) (reqs : List (String × PortSpec)),
      check_ports listening reqs = (requested_pairs reqs).filter (fun q => listening q.2)) ∧
    check_ports (fun p => p == 32400)
      [(("SSH"), PortSpec.single 22), (("Plex"), PortSpec.single 32400)]
      = [(("Plex"), 32400)] := by
  constructor
  · intro listening reqs
    induction reqs with
    | nil => rfl
    | cons r tl ih =>
      obtain ⟨n, s⟩ := r
      cases s with
      | single p =>
        by_cases hp : listening p = true
        · simp [check_ports, requested_pairs, spec_ports, is_port_used, hp, ih]
        · simp [check_ports, requested_pairs, spec_ports, is_port_used, hp, ih]
      | multi ps =>
        simp only [check_ports, requested_pairs, spec_ports, List.flatMap_cons,
          List.filter_append, is_port_used]
        rw [filter_map_comm (fun p => ((n, p) : String × Nat)) (fun q => listening q.2) ps]
        simp only [ih, requested_pairs]
        rfl
  · decide

/-- Claim C9: for every content of /etc/os-release, including an absent
file, detect_distro lands in the fixed eight-element catalog, and every
catalog member other than unknown has a package manager. -/
theorem detect_distro_range_pkg_coverage :
    (∀ osRelease : Option String, detect_distro osRelease ∈ distro_catalog) ∧
    (∀ d ∈ distro_catalog, d ≠ ("unknown") → (get_package_manager d).isSome = true) := by
  constructor
  · intro o
    cases o with
    | none => simp [detect_distro, distro_catalog]
    | some s =>
      simp only [detect_distro]
      repeat' split
      all_goals simp [distro_catalog]
  · decide

theorem validate_foldl_append (checks : List (String × Except String Unit))
    (acc : List (String × Bool)) :
    checks.foldl (fun acc c => acc ++ [validate_section c.1 c.2]) acc =
      acc ++ checks.map (fun c => validate_section c.1 c.2) := by
  induction checks generalizing acc with
  | nil => simp
  | cons c tl ih => simp [ih]

/-- Fixture: a single failing validation check. -/
theorem validate_exit_code_counterexample :
    ¬(((run_validate [(("Config file"), Except.error ("Missing config.yaml"))]).2 = 1) ↔
      (∃ p ∈ (run_validate [(("Config file"), Except.error ("Missing config.yaml"))]).1,
        p.2 = false)) := by
  decide

/-- Claim C6 (amended): the validator runs every registered check even when
earlier ones fail - each check is wrapped in its own handler and its result
is reported - but the process then exits 0 whether or not any check
failed. -/
theorem validate_runs_all_exits_zero :
    ∀ checks : List (String × Except String Unit),
      ((run_validate checks).1.length = checks.length) ∧
      (∀ c ∈ checks, validate_section c.1 c.2 ∈ (run_validate checks).1) ∧
      ((run_validate checks).2 = 0) := by
  intro checks
  refine ⟨?_, ?_, rfl⟩
  · simp [run_validate, validate_foldl_append]
  · intro c hc
    simp only [run_validate, validate_foldl_append, List.nil_append]
    exact List.mem_map_of_mem (fun c => validate_section c.1 c.2) hc

/-- Claim C7 counterexample: the RAM probe does not fail closed on a
memory-info parse error - it fails (the AttributeError raised by calling
group on the unmatched search result escapes get_ram_gb). -/
theorem ram_probe_raises_counterexample :
    (get_ram_gb (Except.ok ("processor: 0"))).isOk = false := by
  rfl

/-- Claim C7 (amended): has_internet, check_dns, check_time_sync and
is_live_cd degrade to false or none on failure of the queried subsystem and
detect_distro degrades to unknown on a missing file, but get_ram_gb has no
handler: on a memory-info parse failure it raises rather than returning a
degraded result. -/
theorem probe_degradation_amended :
    ∀ (e : String) (c : String),
      has_internet (Except.error e) = false ∧
      check_dns (Except.error e) = none ∧
      check_time_sync (Except.error e) = false ∧
      is_live_cd (Except.error e) = false ∧
      detect_distro none = ("unknown") ∧
      (search_memtotal c.toList = none →
        get_ram_gb (Except.ok c) =
          Except.error ("AttributeError: NoneType object has no attribute group")) := by
  intro e c
  refine ⟨rfl, rfl, rfl, rfl, rfl, ?_⟩
  intro h
  have h2 : search_memtotal c.data = none := h
  simp [get_ram_gb, h2]

/-- Witness for C7 at a concrete failing socket and a concrete meminfo
content with no MemTotal line. -/
theorem probe_degradation_amended_witness :
    has_internet (Except.error ("timed out")) = false ∧
    get_ram_gb (Except.ok ("processor: 0")) =
      Except.error ("AttributeError: NoneType object has no attribute group") := by
  have h := probe_degradation_amended ("timed out") ("processor: 0")
  exact ⟨h.1, h.2.2.2.2.2 (by rfl)⟩

/-- Claim C4 counterexample: with both --uninstall and --repair on the
command line, the Section 39 routing runs the repair branch and exits there;
the run mode is Repair, not Uninstall. -/
theorem mode_precedence_counterexample :
    route_modes (parse_args [("--uninstall"), ("--repair")]) true = RouteOutcome.repairExit ∧
    route_modes (parse_args [("--uninstall"), ("--repair")]) true ≠ RouteOutcome.uninstallExit := by
  decide

/-- Claim C4 (amended): when several mode flags are supplied the branch
checked earliest in the source wins, in the order
DryRun, Repair, Reconfigure, Uninstall (gated on operator confirmation),
DisableAutomation; an unconfirmed uninstall falls through to the next
branch. -/
theorem mode_precedence_code_order :
    ∀ (np rc u da c rep : Bool),
      route_modes (ArgparseFlags.mk true np rep rc u da) c = RouteOutcome.dryRunExit ∧
      route_modes (ArgparseFlags.mk false np true rc u da) c = RouteOutcome.repairExit ∧
      route_modes (ArgparseFlags.mk false np false true u da) c = RouteOutcome.reconfigureExit ∧
      route_modes (ArgparseFlags.mk false np false false true da) true = RouteOutcome.uninstallExit ∧
      route_modes (ArgparseFlags.mk false np false false false true) c = RouteOutcome.disableAutomationExit ∧
      route_modes (ArgparseFlags.mk false np false false true da) false =
        (if da then RouteOutcome.disableAutomationExit else RouteOutcome.fallThrough) := by
  decide

theorem load_serialized_of_parse :
    ∀ (l : List (String × String)),
      (∀ p ∈ l, parse_line (serialize_pair p) = some p) →
      load_config (serialize_doc l) = some l := by
  intro l
  induction l with
  | nil => intro h; rfl
  | cons p tl ih =>
    intro h
    have hp := h p (List.mem_cons_self p tl)
    have ht : load_config (List.map serialize_pair tl) = some tl :=
      ih (fun q hq => h q (List.mem_cons_of_mem p hq))
    simp only [serialize_doc, List.map_cons, load_config]
    rw [hp, ht]

/-- Claim C2 counterexample: saving the two-field document doc_new over the
one-field document doc_old and dying after one complete line leaves a file
that load parses successfully into a document that is neither the previous
valid document nor a ConfigCorrupt failure. -/
theorem save_interrupt_counterexample :
    ¬(load_config (interrupted_save (serialize_doc doc_old) doc_new 1) = some doc_old ∨
      load_config (interrupted_save (serialize_doc doc_old) doc_new 1) = none) := by
  decide

/-- Claim C2 (amended): save truncates CONFIG_PATH in place - no temporary
file, no rename - so an interruption after k complete lines leaves exactly
the first k lines of the new serialization: the previous document is lost
as soon as the save starts, and for well-formed fields a subsequent load
succeeds on the prefix and returns the first k fields of the new document,
not the previous document and not a ConfigCorrupt failure. -/
theorem save_truncate_prefix_load :
    ∀ (oldFile : List String) (newDoc : List (String × String)) (k : Nat),
      interrupted_save oldFile newDoc k = (serialize_doc newDoc).take k ∧
      ((∀ p ∈ newDoc, parse_line (serialize_pair p) = some p) →
        load_config (interrupted_save oldFile newDoc k) = some (newDoc.take k)) := by
  intro oldF newDoc k
  refine ⟨rfl, ?_⟩
  intro h
  have heq : interrupted_save oldF newDoc k = serialize_doc (newDoc.take k) := by
    simp only [interrupted_save, serialize_doc]
    exact (List.map_take serialize_pair newDoc k).symm
  rw [heq]
  exact load_serialized_of_parse (newDoc.take k)
    (fun p hp => h p (List.take_subset k newDoc hp))

/-- Witness for C2: the concrete interrupted save of doc_new over doc_old
after one line loads back exactly the first field of doc_new. -/
theorem save_truncate_prefix_load_witness :
    load_config (interrupted_save (serialize_doc doc_old) doc_new 1) = some (doc_new.take 1) :=
  (save_truncate_prefix_load (serialize_doc doc_old) doc_new 1).2 (by decide)

theorem usb_loop_ok (env : CmdEnv) (use : String → Bool) :
    ∀ (names : List String) (cfg : Config),
      (∀ n ∈ names, use n = true → (env.blkid n).isSome = true) →
      (usb_loop env use names cfg).2 =
        Except.ok ({ cfg with usb_backups := cfg.usb_backups ++
          (names.filter use).map (fun n => usb_record env n ((env.blkid n).getD (""))) }) := by
  intro names
  induction names with
  | nil => intro cfg h; simp [usb_loop]
  | cons n rest ih =>
    intro cfg h
    by_cases hu : use n = true
    · obtain ⟨u, hu2⟩ := Option.isSome_iff_exists.mp (h n (List.mem_cons_self n rest) hu)
      have ih2 := ih ({ cfg with usb_backups := cfg.usb_backups ++ [usb_record env n u] })
        (fun m hm hum => h m (List.mem_cons_of_mem n hm) hum)
      simp only [usb_loop, hu, hu2, if_true]
      rw [ih2]
      simp [hu, hu2, List.append_assoc]
    · have hu3 : use n = false := by simpa using hu
      simp only [usb_loop, hu3, Bool.false_eq_true, if_false]
      rw [ih cfg (fun m hm hum => h m (List.mem_cons_of_mem n hm) hum)]
      simp [hu3]

/-- Claim C10: configure_usb_backups replaces the usb_backups field
wholesale - whatever the config held before, afterwards it contains exactly
one (label, mount_point, uuid) record per USB device accepted in this
invocation, in order; all other config fields are untouched (the result
does not depend on the prior usb_backups list at all). -/
theorem usb_backups_wholesale_replace :
    ∀ (env : CmdEnv) (use : String → Bool) (usbNames : List String) (cfg : Config),
      (∀ n ∈ usbNames, use n = true → (env.blkid n).isSome = true) →
      (configure_usb_backups env use usbNames cfg).2 =
        Except.ok ({ cfg with usb_backups :=
          (usbNames.filter use).map (fun n => usb_record env n ((env.blkid n).getD (""))) }) := by
  intro env use names cfg h
  have h2 := usb_loop_ok env use names ({ cfg with usb_backups := [] }) h
  simpa [configure_usb_backups] using h2

/-- Witness for C10: one accepted USB stick sdd over a config that already
holds a stale usb_backups record; the stale record is gone and exactly one
new record is stored. -/
theorem usb_backups_wholesale_replace_witness :
    (configure_usb_backups env_ok (fun _ => true) [("sdd")] cfg_w).2 =
      Except.ok ({ cfg_w with usb_backups := (([("sdd")]).filter (fun _ => true)).map (fun n => usb_record env_ok n ((env_ok.blkid n).getD (""))) }) :=
  usb_backups_wholesale_replace env_ok (fun _ => true) [("sdd")] cfg_w (by decide)

/-- Claim C5 counterexample: two unmounted disks, both wipe prompts
accepted, blkid failing on the first: the CalledProcessError escapes the
loop instead of being isolated to that disk - the result is the raised
exception, no fstab entries survive to write_fstab, and the second disk is
never processed. -/
theorem disk_failure_isolation_counterexample :
    ((setup_unmounted_disks env_blkid_sdb_fails (fun _ => true) [disk_sdb, disk_sdc]).2).isOk = false ∧
    (Act.mkfsCmd ("sdc")) ∉
      (setup_unmounted_disks env_blkid_sdb_fails (fun _ => true) [disk_sdb, disk_sdc]).1 := by
  decide

/-- Claim C5 (amended): the exit statuses of mkfs.ext4 and mount are never
examined (subprocess.run without check=True), so when blkid succeeds every
accepted disk is mounted and registered even if its format or mount command
failed; and a blkid (UUID read) failure raises out of the loop: processing
stops at that disk, later disks are not visited, and the entries collected
so far are discarded rather than written to fstab. -/
theorem setup_disks_failure_semantics :
    (∀ (env : CmdEnv) (wipe : String → Bool) (ds : List Disk),
      (∀ d ∈ ds, wipe d.name = true → (env.blkid d.name).isSome = true) →
      (setup_unmounted_disks env wipe ds).2 =
        Except.ok ((ds.filter (fun d => wipe d.name)).map
          (fun d => FstabEntry.mk ((env.blkid d.name).getD ("")) (mount_point_for env d)))) ∧
    (∀ (env : CmdEnv) (wipe : String → Bool) (ds1 : List Disk) (d : Disk) (ds2 : List Disk),
      wipe d.name = true → env.blkid d.name = none →
      (∀ d2 ∈ ds1, wipe d2.name = true → (env.blkid d2.name).isSome = true) →
      (setup_unmounted_disks env wipe (ds1 ++ d :: ds2)).2 =
          Except.error ("CalledProcessError: blkid") ∧
      (setup_unmounted_disks env wipe (ds1 ++ d :: ds2)).1 =
          (setup_unmounted_disks env wipe ds1).1 ++ [Act.mkfsCmd d.name, Act.mountCmd d.name]) := by
  constructor
  · intro env wipe ds
    induction ds with
    | nil => intro h; rfl
    | cons d rest ih =>
      intro h
      by_cases hw : wipe d.name = true
      · obtain ⟨u, hu⟩ := Option.isSome_iff_exists.mp (h d (List.mem_cons_self d rest) hw)
        have ht := ih (fun q hq hwq => h q (List.mem_cons_of_mem d hq) hwq)
        simp [setup_unmounted_disks, hw, hu, ht]
      · have hw2 : wipe d.name = false := by simpa using hw
        have ht := ih (fun q hq hwq => h q (List.mem_cons_of_mem d hq) hwq)
        simp [setup_unmounted_disks, hw2, ht]
  · intro env wipe ds1 d ds2 hw hb hok
    induction ds1 with
    | nil =>
      simp [setup_unmounted_disks, hw, hb]
    | cons a tl ih =>
      have ih2 := ih (fun q hq hwq => hok q (List.mem_cons_of_mem a hq) hwq)
      by_cases hwa : wipe a.name = true
      · obtain ⟨u, hu⟩ := Option.isSome_iff_exists.mp (hok a (List.mem_cons_self a tl) hwa)
        constructor
        · simp [setup_unmounted_disks, hwa, hu, ih2.1]
        · simp [setup_unmounted_disks, hwa, hu, ih2.1, ih2.2]
      · have hwa2 : wipe a.name = false := by simpa using hwa
        constructor
        · simp [setup_unmounted_disks, hwa2, ih2.1]
        · simp [setup_unmounted_disks, hwa2, ih2.2]

/-- Witness for C5: a successful run registering sdb, and the aborting run
of the counterexample shape obtained through the theorem. -/
theorem setup_disks_failure_semantics_witness :
    (setup_unmounted_disks env_ok (fun _ => true) [disk_sdb]).2 =
      Except.ok (([disk_sdb].filter (fun d => (fun _ => true) d.name)).map
        (fun d => FstabEntry.mk ((env_ok.blkid d.name).getD ("")) (mount_point_for env_ok d))) ∧
    (setup_unmounted_disks env_blkid_sdb_fails (fun _ => true) ([] ++ disk_sdb :: [disk_sdc])).2 =
      Except.error ("CalledProcessError: blkid") :=
  ⟨setup_disks_failure_semantics.1 env_ok (fun _ => true) [disk_sdb] (by decide),
   (setup_disks_failure_semantics.2 env_blkid_sdb_fails (fun _ => true) [] disk_sdb [disk_sdc]
      (by decide) (by decide) (by decide)).1⟩

theorem setup_mkfs_from_input (env : CmdEnv) (wipe : String → Bool) :
    ∀ (ds : List Disk) (n : String),
      Act.mkfsCmd n ∈ (setup_unmounted_disks env wipe ds).1 →
      ∃ d, d ∈ ds ∧ d.name = n := by
  intro ds
  induction ds with
  | nil => intro n h; simp [setup_unmounted_disks] at h
  | cons d rest ih =>
    intro n h
    by_cases hw : wipe d.name = true
    · cases hu : env.blkid d.name with
      | none =>
        simp [setup_unmounted_disks, hw, hu] at h
        exact ⟨d, List.mem_cons_self d rest, h.symm⟩
      | some u =>
        simp [setup_unmounted_disks, hw, hu] at h
        rcases h with h | h
        · exact ⟨d, List.mem_cons_self d rest, h.symm⟩
        · obtain ⟨d2, hd2, hn⟩ := ih n h
          exact ⟨d2, List.mem_cons_of_mem d hd2, hn⟩
    · have hw2 : wipe d.name = false := by simpa using hw
      rw [show setup_unmounted_disks env wipe (d :: rest) = setup_unmounted_disks env wipe rest
        from by simp [setup_unmounted_disks, hw2]] at h
      obtain ⟨d2, hd2, hn⟩ := ih n h
      exact ⟨d2, List.mem_cons_of_mem d hd2, hn⟩

theorem setup_entries_from_blkid (env : CmdEnv) (wipe : String → Bool) :
    ∀ (ds : List Disk) (es : List FstabEntry),
      (setup_unmounted_disks env wipe ds).2 = Except.ok es →
      ∀ e ∈ es, ∃ d, d ∈ ds ∧ env.blkid d.name = some e.uuid := by
  intro ds
  induction ds with
  | nil =>
    intro es h e he
    simp [setup_unmounted_disks] at h
    subst h
    simp at he
  | cons d rest ih =>
    intro es h e he
    by_cases hw : wipe d.name = true
    · cases hu : env.blkid d.name with
      | none => simp [setup_unmounted_disks, hw, hu] at h
      | some u =>
        cases hr : (setup_unmounted_disks env wipe rest).2 with
        | error msg => simp [setup_unmounted_disks, hw, hu, hr] at h
        | ok es2 =>
          simp [setup_unmounted_disks, hw, hu, hr] at h
          rw [← h] at he
          rcases List.mem_cons.mp he with he1 | he2
          · refine ⟨d, List.mem_cons_self d rest, ?_⟩
            rw [he1]
            exact hu
          · obtain ⟨d2, hd2, hb2⟩ := ih es2 hr e he2
            exact ⟨d2, List.mem_cons_of_mem d hd2, hb2⟩
    · have hw2 : wipe d.name = false := by simpa using hw
      have h2 : (setup_unmounted_disks env wipe rest).2 = Except.ok es := by
        rw [← h]; simp [setup_unmounted_disks, hw2]
      obtain ⟨d2, hd2, hb2⟩ := ih es h2 e he
      exact ⟨d2, List.mem_cons_of_mem d hd2, hb2⟩

/-- Claim C3: re-running the disk pipeline against a state in which a disk
is already promoted to Mounted re-probes the block devices first, issues no
mkfs for that disk, and appends no record carrying its UUID (mkfs assigns
fresh UUIDs), so the recorded mount list keeps at most one record for that
UUID. -/
theorem disk_commit_idempotent
    (env : CmdEnv) (wipe : String → Bool) (s : SysState) (d : Disk) (u : String)
    (hd : d ∈ s.disks) (hm : d.mountpoint.isSome = true) (hu : d.uuid = some u)
    (hnodup : (s.disks.map Disk.name).Nodup)
    (hfresh : ∀ d2 ∈ detect_unmounted_devices s.disks, env.blkid d2.name ≠ some u)
    (hcount : (s.fstab.countP (fun e => e.uuid == u)) ≤ 1) :
    (Act.mkfsCmd d.name ∉ (run_disk_pipeline env wipe s).2) ∧
    ((run_disk_pipeline env wipe s).1.fstab.countP (fun e => e.uuid == u)) ≤ 1 := by
  have hmk : Act.mkfsCmd d.name ∉
      (setup_unmounted_disks env wipe (detect_unmounted_devices s.disks)).1 := by
    intro hmem
    obtain ⟨d2, hd2, hn⟩ :=
      setup_mkfs_from_input env wipe (detect_unmounted_devices s.disks) d.name hmem
    have hd2s : d2 ∈ s.disks := List.mem_of_mem_filter hd2
    have hd2n : d2.mountpoint.isNone = true := by
      have := List.of_mem_filter hd2
      simpa using this
    have hdd : d2 = d := List.inj_on_of_nodup_map hnodup hd2s hd hn
    rw [hdd] at hd2n
    have : d.mountpoint = none := Option.isNone_iff_eq_none.mp hd2n
    rw [this] at hm
    simp at hm
  have hcnt0 : ∀ es,
      (setup_unmounted_disks env wipe (detect_unmounted_devices s.disks)).2 = Except.ok es →
      es.countP (fun e => e.uuid == u) = 0 := by
    intro es hok
    apply List.countP_eq_zero.mpr
    intro e he
    obtain ⟨d2, hd2, hb⟩ :=
      setup_entries_from_blkid env wipe (detect_unmounted_devices s.disks) es hok e he
    have hne := hfresh d2 hd2
    intro hbeq
    have heu : e.uuid = u := by simpa using hbeq
    rw [heu] at hb
    exact hne hb
  by_cases hemp : (detect_unmounted_devices s.disks).isEmpty = true
  · constructor
    · simp [run_disk_pipeline, hemp]
    · simpa [run_disk_pipeline, hemp] using hcount
  · have hemp2 : (detect_unmounted_devices s.disks).isEmpty = false := by simpa using hemp
    cases hres : (setup_unmounted_disks env wipe (detect_unmounted_devices s.disks)).2 with
    | error msg =>
      constructor
      · simpa [run_disk_pipeline, hemp2, hres] using hmk
      · simpa [run_disk_pipeline, hemp2, hres] using hcount
    | ok es =>
      constructor
      · intro hmem
        have hmem2 : Act.mkfsCmd d.name ∈
            (setup_unmounted_disks env wipe (detect_unmounted_devices s.disks)).1 ++
              es.map (fun e => Act.fstabAppend e.uuid) := by
          simpa [run_disk_pipeline, hemp2, hres] using hmem
        rcases List.mem_append.mp hmem2 with h1 | h1
        · exact hmk h1
        · rcases List.mem_map.mp h1 with ⟨e, he, habs⟩
          simp at habs
      · have : ((run_disk_pipeline env wipe s).1.fstab) = s.fstab ++ es := by
          simp [run_disk_pipeline, hemp2, hres, write_fstab]
        rw [this, List.countP_append, hcnt0 es hres]
        simpa using hcount

/-- Witness for C3: state_w has sda already mounted with UUID u-1 and one
matching fstab record, plus an unmounted sdb; the rerun does not mkfs sda
and the u-1 record stays unique. -/
theorem disk_commit_idempotent_witness :
    (Act.mkfsCmd disk_sda_mounted.name ∉ (run_disk_pipeline env_ok (fun _ => true) state_w).2) ∧
    ((run_disk_pipeline env_ok (fun _ => true) state_w).1.fstab.countP
      (fun e => e.uuid == ("u-1"))) ≤ 1 :=
  disk_commit_idempotent env_ok (fun _ => true) state_w disk_sda_mounted ("u-1")
    (by decide) (by decide) (by decide) (by decide) (by decide) (by decide)

/-- Claim C1 (evaluation at the failing input): invoked with --dry-run,
install source auto, one unmounted disk whose wipe prompt is accepted and
no USB devices, the run exits 0 - but it has already saved the config
document, formatted and mounted the disk, appended an fstab line and saved
the state cache before reaching the dry-run gate, which the script places
after those mutations. -/
theorem dry_run_performs_mutations :
    dry_run_eval.2 = 0 ∧
    Act.configSave ∈ dry_run_eval.1 ∧
    Act.mkfsCmd (("sdb")) ∈ dry_run_eval.1 ∧
    Act.mountCmd (("sdb")) ∈ dry_run_eval.1 ∧
    Act.fstabAppend (("uuid-sdb")) ∈ dry_run_eval.1 ∧
    Act.stateCacheSave ∈ dry_run_eval.1 := by
  decide

/-- Witness for C6: a two-check list whose second check fails; both results
are reported and the exit code is 0. -/
theorem validate_runs_all_exits_zero_witness :
    validate_section ("Disk mounts") (Except.error ("/data not mounted")) ∈
      (run_validate [(("Config file"), Except.ok ()),
        (("Disk mounts"), Except.error ("/data not mounted"))]).1 ∧
    (run_validate [(("Config file"), Except.ok ()),
      (("Disk mounts"), Except.error ("/data not mounted"))]).2 = 0 := by
  have h := validate_runs_all_exits_zero
    [(("Config file"), Except.ok ()), (("Disk mounts"), Except.error ("/data not mounted"))]
  refine ⟨h.2.1 (("Disk mounts"), Except.error ("/data not mounted")) ?_, h.2.2⟩
  exact List.mem_cons_of_mem _ (List.mem_cons_self _ _)

/-- Witness for C9: one concrete os-release content and the debian catalog
member. -/
theorem detect_distro_range_pkg_coverage_witness :
    detect_distro (some ("ID=arch")) ∈ distro_catalog ∧
    (get_package_manager ("debian")).isSome = true := by
  have h := detect_distro_range_pkg_coverage
  exact ⟨h.1 (some ("ID=arch")), h.2 ("debian") (by decide) (by decide)⟩
